import Mathlib

/-!
Verification of the Astrotracker repository against its specification.

The development shallowly embeds the Python sources:
* `src/astro_simulator.py` — the `AstroTrackingSimulator` class: star catalog,
  target selection, horizontal-coordinate output record, day-phase classifier
  and observing-condition verdict;
* `src/astrotracker_ubicacion.py` — the `AstroTrackerConUbicacion` class:
  the alternative visibility policy (`es_objeto_visible`) and the alternative
  observing-condition verdict (`obtener_info_observacion`);
* `src/ubicacion.py` — the `UbicacionManager` class: manual location entry,
  JSON persistence, and the `EarthLocation` recreation logic on load.

Python floats are modelled by `ℚ` where only comparisons, record plumbing and
exact serialisation are involved, and by `ℝ` where trigonometry is involved.
The horizontal-coordinate transform itself is performed in the sources by the
external astropy library (`SkyCoord.transform_to(AltAz(...))`); it is modelled
from the specification, section 4.2, which prescribes the standard spherical
astronomy algorithm.  The JSON text layer (`json.dump` / `json.load`) is
likewise external; a JSON object is modelled as a key-value list, which is
faithful because Python's json round-trips float64 and str values exactly.
-/

namespace Astrotracker

/-- Geographic location of the observatory, mirroring the fields of astropy's
`EarthLocation` as the repository constructs it: latitude and longitude in
degrees, height in meters (`src/ubicacion.py`, e.g. lines 130-134). -/
structure EarthLocation where
  lat : ℚ
  lon : ℚ
  height : ℚ
deriving DecidableEq

/-- One catalog entry of `AstroTrackingSimulator.catalog`
(`src/astro_simulator.py` lines 25-35): right ascension and declination in
degrees plus apparent magnitude. -/
structure CatalogEntry where
  ra : ℚ
  dec : ℚ
  magnitude : ℚ
deriving DecidableEq

/-- The fixed star catalog of `AstroTrackingSimulator.__init__`
(`src/astro_simulator.py` lines 25-35), as the name-keyed lookup the code
performs with `target_name in self.catalog` / `self.catalog[name]`. -/
def catalogLookup : String → Option CatalogEntry
  | "Sirius" => some ⟨101.287, -16.716, -1.46⟩
  | "Vega" => some ⟨279.234, 38.784, 0.03⟩
  | "Polaris" => some ⟨37.946, 89.264, 1.97⟩
  | "Betelgeuse" => some ⟨88.793, 7.407, 0.50⟩
  | "Rigel" => some ⟨78.634, -8.202, 0.13⟩
  | "Aldebaran" => some ⟨68.980, 16.509, 0.85⟩
  | "Capella" => some ⟨79.172, 45.998, 0.08⟩
  | "Arcturus" => some ⟨213.915, 19.182, -0.05⟩
  | "Antares" => some ⟨247.352, -26.432, 1.09⟩
  | _ => none

/-- Mutable state of `AstroTrackingSimulator` (`src/astro_simulator.py`
lines 13-22): optional observatory location, optional current target name,
and the tracking flag. -/
structure AstroTrackingSimulator where
  earth_location : Option EarthLocation
  target_object : Option String
  tracking_active : Bool
deriving DecidableEq

/-- `AstroTrackingSimulator.set_target` (`src/astro_simulator.py` lines 37-48):
if the name is a catalog key, record it as the target, activate tracking and
return `True`; otherwise return `False` leaving the state untouched. -/
def set_target (sim : AstroTrackingSimulator) (target_name : String) :
    Bool × AstroTrackingSimulator :=
  if (catalogLookup target_name).isSome then
    (true, { sim with target_object := some target_name, tracking_active := true })
  else
    (false, sim)

/-- Day-phase classifier of `AstroTrackingSimulator.get_sun_moon_info`
(`src/astro_simulator.py` lines 194-205), a pure function of the solar
altitude in degrees. -/
def day_phase (sun_alt : ℚ) : String :=
  if sun_alt > 6 then "Día"
  else if sun_alt > -6 then "Crepúsculo"
  else if sun_alt > -12 then "Crepúsculo náutico"
  else if sun_alt > -18 then "Crepúsculo astronómico"
  else "Noche"

/-- Observing-condition verdict of `AstroTrackingSimulator.get_sun_moon_info`
(`src/astro_simulator.py` line 219): `'Good' if day_phase == "Noche" else
'Poor'`, as a function of the solar altitude it classifies. -/
def observing_conditions (sun_alt : ℚ) : String :=
  if day_phase sun_alt = "Noche" then "Good" else "Poor"

/-- Observing-condition verdict of
`AstroTrackerConUbicacion.obtener_info_observacion`
(`src/astrotracker_ubicacion.py` lines 145-154): `es_noche` is solar
elevation `< -6`, and the verdict is `'Buenas' if es_noche and
luna['elevacion'] < 30 else 'Regular'`. -/
def condiciones_observacion (sol_elev luna_elev : ℚ) : String :=
  if sol_elev < -6 ∧ luna_elev < 30 then "Buenas" else "Regular"

/-- Distance of a phase label from "Día", used to state monotonicity of the
classifier: larger rank means further from day, toward night. -/
def phaseRank (s : String) : ℕ :=
  if s = "Día" then 0
  else if s = "Crepúsculo" then 1
  else if s = "Crepúsculo náutico" then 2
  else if s = "Crepúsculo astronómico" then 3
  else 4

/-- Visibility decision of `AstroTrackingSimulator.get_target_coordinates`
(`src/astro_simulator.py` line 87): `is_visible = target_altaz.alt.deg > 0`. -/
def is_visible (altitud : ℝ) : Prop := altitud > 0

/-- `AstroTrackerConUbicacion.es_objeto_visible`
(`src/astrotracker_ubicacion.py` lines 121-129): visible when the elevation
strictly exceeds the minimum elevation parameter. -/
def es_objeto_visible (elevacion elevacion_minima : ℝ) : Prop :=
  elevacion > elevacion_minima

/-- `es_objeto_visible` at its default argument `elevacion_minima=10`
(`src/astrotracker_ubicacion.py` line 121), the value used at the call sites
in lines 182 and 203. -/
def es_objeto_visible_default (elevacion : ℝ) : Prop :=
  es_objeto_visible elevacion 10

/-- Modelled from the spec: section 4.2 requires azimuth (and local sidereal
time) to be "wrapped to [0,360)"; the underlying transform the sources
delegate to astropy is not in the repository.  `wrap360 x` is the unique
representative of `x` modulo 360 lying in `[0, 360)`. -/
noncomputable def wrap360 (x : ℝ) : ℝ := x - 360 * ⌊x / 360⌋

/-- Modelled from the spec: section 4.2 step 2 normalizes the hour angle to
`(-180, 180]`.  `wrap180 x` is the representative of `x` modulo 360 in
`(-180, 180]`. -/
noncomputable def wrap180 (x : ℝ) : ℝ := 180 - wrap360 (180 - x)

/-- Modelled from the spec: section 4.2 step 1, "mean sidereal time formula
referenced to J2000 epoch, degrees, wrapped to [0,360)".  The instant is
measured in days since the J2000 epoch; the coefficients are the standard
Greenwich mean sidereal time linear formula. -/
noncomputable def gmstDeg (instant : ℝ) : ℝ :=
  wrap360 (280.46061837 + 360.98564736629 * instant)

/-- Modelled from the spec: section 4.2 step 1, local sidereal time from the
`Instant` and the observer longitude, in degrees wrapped to `[0, 360)`. -/
noncomputable def localSiderealTimeDeg (instant lonDeg : ℝ) : ℝ :=
  wrap360 (gmstDeg instant + lonDeg)

/-- Modelled from the spec: section 4.2 step 2, hour angle
`H = localSiderealTimeDeg - rightAscensionDeg` normalized to `(-180, 180]`. -/
noncomputable def hourAngleDeg (lstDeg raDeg : ℝ) : ℝ := wrap180 (lstDeg - raDeg)

/-- Modelled from the spec: section 4.2 step 3,
`altitude = arcsin(sin(dec)*sin(lat) + cos(dec)*cos(lat)*cos(H))`, with
degrees at the interface and radians internally. -/
noncomputable def altitudeDeg (latDeg decDeg hDeg : ℝ) : ℝ :=
  180 / Real.pi * Real.arcsin
    (Real.sin (decDeg * (Real.pi / 180)) * Real.sin (latDeg * (Real.pi / 180)) +
      Real.cos (decDeg * (Real.pi / 180)) * Real.cos (latDeg * (Real.pi / 180)) *
        Real.cos (hDeg * (Real.pi / 180)))

/-- Two-argument arctangent, the `atan2(y, x)` of spec section 4.2 step 4,
realized as the complex argument of `x + y*I`, valued in `(-π, π]`. -/
noncomputable def atan2 (y x : ℝ) : ℝ := Complex.arg ⟨x, y⟩

/-- Modelled from the spec: section 4.2 step 4,
`azimuth = atan2(-sin(H)*cos(dec), sin(dec)*cos(lat) - cos(dec)*sin(lat)*cos(H))`,
normalized to `[0, 360)` measured clockwise from north. -/
noncomputable def azimuthDeg (latDeg decDeg hDeg : ℝ) : ℝ :=
  wrap360 (180 / Real.pi * atan2
    (-Real.sin (hDeg * (Real.pi / 180)) * Real.cos (decDeg * (Real.pi / 180)))
    (Real.sin (decDeg * (Real.pi / 180)) * Real.cos (latDeg * (Real.pi / 180)) -
      Real.cos (decDeg * (Real.pi / 180)) * Real.sin (latDeg * (Real.pi / 180)) *
        Real.cos (hDeg * (Real.pi / 180))))

/-- The result dictionary of `AstroTrackingSimulator.get_target_coordinates`
(`src/astro_simulator.py` lines 90-98): name, altitude and azimuth in degrees,
magnitude, visibility flag and status string, and the observation instant
that was used (the code stores `observing_time.iso`; the instant itself is
kept here). -/
structure TargetCoords where
  name : String
  altitud : ℝ
  azimut : ℝ
  magnitude : ℚ
  is_visible : Prop
  status : String
  timestamp : ℝ

/-- Choice of observation time in `AstroTrackingSimulator.get_target_coordinates`
(`src/astro_simulator.py` lines 65-68): the explicit `timestamp` argument if
one was passed, otherwise `Time.now()` — the current reading `now` of the
global clock, which the embedding passes in explicitly so that the dependence
on the clock is visible. -/
def effectiveTime (timestamp : Option ℝ) (now : ℝ) : ℝ := timestamp.getD now

/-- `AstroTrackingSimulator.get_target_coordinates`
(`src/astro_simulator.py` lines 50-105): `None` when no target or no location
is set; otherwise the horizontal coordinates of the catalog target at the
effective observation time.  The equatorial-to-horizontal conversion the code
delegates to astropy is modelled from spec section 4.2.  A target name absent
from the catalog (unreachable through `set_target`) lands in the `except`
branch of the code, which produces an error dictionary instead of
coordinates; the embedding returns `none` there. -/
noncomputable def get_target_coordinates (sim : AstroTrackingSimulator)
    (timestamp : Option ℝ) (now : ℝ) : Option TargetCoords :=
  match sim.target_object, sim.earth_location with
  | some name, some loc =>
    match catalogLookup name with
    | some data =>
      let t := effectiveTime timestamp now
      let h := hourAngleDeg (localSiderealTimeDeg t (loc.lon : ℝ)) (data.ra : ℝ)
      let alt := altitudeDeg (loc.lat : ℝ) (data.dec : ℝ) h
      some { name := name
             altitud := alt
             azimut := azimuthDeg (loc.lat : ℝ) (data.dec : ℝ) h
             magnitude := data.magnitude
             is_visible := is_visible alt
             status := if 0 < alt then "Visible" else "Bajo el horizonte"
             timestamp := t }
    | none => none
  | _, _ => none

/-- A JSON scalar as the repository's location dictionaries use them: numbers
(Python floats/ints, which `json.dump`/`json.load` round-trip exactly) and
strings.  A JSON object is a key-value list. -/
inductive JsonValue
  | num (q : ℚ)
  | str (s : String)
deriving DecidableEq

/-- Mutable state of `UbicacionManager` (`src/ubicacion.py` lines 12-15): the
current location dictionary and the derived astropy `EarthLocation`, both
initially `None`. -/
structure UbicacionManager where
  ubicacion_actual : Option (List (String × JsonValue))
  earth_location : Option EarthLocation
deriving DecidableEq

/-- The location dictionary built by
`UbicacionManager.establecer_ubicacion_manual`
(`src/ubicacion.py` lines 118-127), in the source's key order.  The ISO
timestamp the code takes from `datetime.now()` is passed in explicitly. -/
def ubicacion_dict (latitud longitud altitud : ℚ) (ciudad pais ts : String) :
    List (String × JsonValue) :=
  [("latitud", JsonValue.num latitud),
   ("longitud", JsonValue.num longitud),
   ("ciudad", JsonValue.str ciudad),
   ("pais", JsonValue.str pais),
   ("region", JsonValue.str ""),
   ("timezone", JsonValue.str ""),
   ("altitud", JsonValue.num altitud),
   ("timestamp", JsonValue.str ts)]

/-- `wrap360` over the rationals: the representative of `x` modulo 360 in
`[0, 360)`, computable. -/
def wrap360Q (x : ℚ) : ℚ := x - 360 * ⌊x / 360⌋

/-- `wrap180` over the rationals: the representative of `x` modulo 360 in
`(-180, 180]`, computable. -/
def wrap180Q (x : ℚ) : ℚ := 180 - wrap360Q (180 - x)

/-- Modelled from the spec: the Observer-construction range check of spec
section 7 is performed in the sources by the external astropy
`EarthLocation(lat=..., lon=..., height=...)` constructor (library code, not
in the repository): its `Latitude` component raises a `ValueError` for
latitudes outside [-90, 90] (modelled as `none`), while its `Longitude`
component accepts every longitude and silently wraps it into (-180, 180];
the height is unconstrained. -/
def EarthLocation_from_geodetic (lat lon height : ℚ) : Option EarthLocation :=
  if -90 ≤ lat ∧ lat ≤ 90 then some ⟨lat, wrap180Q lon, height⟩ else none

/-- `UbicacionManager.establecer_ubicacion_manual`
(`src/ubicacion.py` lines 107-136): first overwrites `ubicacion_actual` with
the new dictionary (line 118), then derives the `EarthLocation` (line 130)
and returns the dictionary.  The method itself performs no range validation;
when the astropy constructor raises (latitude outside [-90, 90]) the
exception propagates out of the method — modelled as returning `none` — with
`ubicacion_actual` already overwritten and `earth_location` keeping its
previous value. -/
def establecer_ubicacion_manual (mgr : UbicacionManager)
    (latitud longitud altitud : ℚ) (ciudad pais ts : String) :
    Option (List (String × JsonValue)) × UbicacionManager :=
  let u := ubicacion_dict latitud longitud altitud ciudad pais ts
  ((EarthLocation_from_geodetic latitud longitud altitud).map (fun _ => u),
   { ubicacion_actual := some u,
     earth_location :=
       match EarthLocation_from_geodetic latitud longitud altitud with
       | some loc => some loc
       | none => mgr.earth_location })

/-- A fresh `AstroTrackingSimulator()` with no location: both optional fields
`None`, tracking inactive (`src/astro_simulator.py` lines 13-22). -/
def sim0 : AstroTrackingSimulator := ⟨none, none, false⟩

/-- A configured simulator: the Teide Observatory location used in
`src/test_ubicacion_simple.py` lines 52-54, with target Sirius selected. -/
def simW : AstroTrackingSimulator :=
  ⟨some ⟨28.3009, -16.5093, 2390⟩, some "Sirius", true⟩

/-- Placeholder coordinates record, used only as the default of `Option.getD`
when extracting a result that is known to be present. -/
def dfltCoords : TargetCoords := ⟨"", 0, 0, 0, False, "", 0⟩

/-- A fresh `UbicacionManager()`: both fields `None`
(`src/ubicacion.py` lines 12-15). -/
def mgr0 : UbicacionManager := ⟨none, none⟩

/-! ### Helper lemmas -/

lemma wrap360_nonneg (x : ℝ) : 0 ≤ wrap360 x := by
  unfold wrap360
  have h := Int.floor_le (x / 360)
  nlinarith

lemma wrap360_lt (x : ℝ) : wrap360 x < 360 := by
  unfold wrap360
  have h := Int.lt_floor_add_one (x / 360)
  nlinarith

lemma wrap360Q_nonneg (x : ℚ) : 0 ≤ wrap360Q x := by
  unfold wrap360Q
  have h := Int.floor_le (x / 360)
  nlinarith

lemma wrap360Q_lt (x : ℚ) : wrap360Q x < 360 := by
  unfold wrap360Q
  have h := Int.lt_floor_add_one (x / 360)
  nlinarith

lemma wrap180Q_mem (x : ℚ) : -180 < wrap180Q x ∧ wrap180Q x ≤ 180 := by
  unfold wrap180Q
  have h1 := wrap360Q_nonneg (180 - x)
  have h2 := wrap360Q_lt (180 - x)
  constructor <;> linarith

lemma altitudeDeg_mem (latDeg decDeg hDeg : ℝ) :
    -90 ≤ altitudeDeg latDeg decDeg hDeg ∧ altitudeDeg latDeg decDeg hDeg ≤ 90 := by
  unfold altitudeDeg
  have hpi := Real.pi_pos
  have h1 := Real.arcsin_le_pi_div_two
    (Real.sin (decDeg * (Real.pi / 180)) * Real.sin (latDeg * (Real.pi / 180)) +
      Real.cos (decDeg * (Real.pi / 180)) * Real.cos (latDeg * (Real.pi / 180)) *
        Real.cos (hDeg * (Real.pi / 180)))
  have h2 := Real.neg_pi_div_two_le_arcsin
    (Real.sin (decDeg * (Real.pi / 180)) * Real.sin (latDeg * (Real.pi / 180)) +
      Real.cos (decDeg * (Real.pi / 180)) * Real.cos (latDeg * (Real.pi / 180)) *
        Real.cos (hDeg * (Real.pi / 180)))
  constructor
  · rw [div_mul_eq_mul_div, le_div_iff₀ hpi]
    nlinarith
  · rw [div_mul_eq_mul_div, div_le_iff₀ hpi]
    nlinarith

lemma azimuthDeg_mem (latDeg decDeg hDeg : ℝ) :
    0 ≤ azimuthDeg latDeg decDeg hDeg ∧ azimuthDeg latDeg decDeg hDeg < 360 :=
  ⟨wrap360_nonneg _, wrap360_lt _⟩

lemma day_phase_dia (a : ℚ) : day_phase a = "Día" ↔ 6 < a := by
  unfold day_phase
  split_ifs with h1 h2 h3 h4
  · exact iff_of_true rfl h1
  · exact iff_of_false (by decide) h1
  · exact iff_of_false (by decide) h1
  · exact iff_of_false (by decide) h1
  · exact iff_of_false (by decide) h1

lemma day_phase_crepusculo (a : ℚ) :
    day_phase a = "Crepúsculo" ↔ -6 < a ∧ a ≤ 6 := by
  unfold day_phase
  split_ifs with h1 h2 h3 h4
  · exact iff_of_false (by decide) (fun h => absurd h1 (not_lt.mpr h.2))
  · exact iff_of_true rfl ⟨h2, not_lt.mp h1⟩
  · exact iff_of_false (by decide) (fun h => absurd h.1 (not_lt.mpr (le_of_not_lt h2)))
  · exact iff_of_false (by decide) (fun h => absurd h.1 (not_lt.mpr (le_of_not_lt h2)))
  · exact iff_of_false (by decide) (fun h => absurd h.1 (not_lt.mpr (le_of_not_lt h2)))

lemma day_phase_nautico (a : ℚ) :
    day_phase a = "Crepúsculo náutico" ↔ -12 < a ∧ a ≤ -6 := by
  unfold day_phase
  split_ifs with h1 h2 h3 h4
  · exact iff_of_false (by decide) (fun h => by linarith [h.2])
  · exact iff_of_false (by decide) (fun h => absurd h2 (not_lt.mpr h.2))
  · exact iff_of_true rfl ⟨h3, le_of_not_lt h2⟩
  · exact iff_of_false (by decide) (fun h => absurd h.1 (not_lt.mpr (le_of_not_lt h3)))
  · exact iff_of_false (by decide) (fun h => absurd h.1 (not_lt.mpr (le_of_not_lt h3)))

lemma day_phase_astronomico (a : ℚ) :
    day_phase a = "Crepúsculo astronómico" ↔ -18 < a ∧ a ≤ -12 := by
  unfold day_phase
  split_ifs with h1 h2 h3 h4
  · exact iff_of_false (by decide) (fun h => by linarith [h.2])
  · exact iff_of_false (by decide) (fun h => by linarith [h.2])
  · exact iff_of_false (by decide) (fun h => absurd h3 (not_lt.mpr h.2))
  · exact iff_of_true rfl ⟨h4, le_of_not_lt h3⟩
  · exact iff_of_false (by decide) (fun h => absurd h.1 (not_lt.mpr (le_of_not_lt h4)))

lemma day_phase_noche (a : ℚ) : day_phase a = "Noche" ↔ a ≤ -18 := by
  unfold day_phase
  split_ifs with h1 h2 h3 h4
  · exact iff_of_false (by decide) (fun h => by linarith)
  · exact iff_of_false (by decide) (fun h => by linarith)
  · exact iff_of_false (by decide) (fun h => by linarith)
  · exact iff_of_false (by decide) (fun h => absurd h4 (not_lt.mpr h))
  · exact iff_of_true rfl (le_of_not_lt h4)

lemma day_phase_antitone (a b : ℚ) (hba : b ≤ a) :
    phaseRank (day_phase a) ≤ phaseRank (day_phase b) := by
  unfold day_phase
  split_ifs with h1 h2 h3 h4 h5 h6 h7 h8 <;> first | decide | linarith

/-! ### Claim theorems -/

/-- C2: the day-phase classifier partitions solar altitude exactly by the
spec's threshold table — Day iff altitude > 6, civil Twilight iff altitude in
(-6, 6], Nautical twilight iff altitude in (-12, -6], Astronomical twilight
iff altitude in (-18, -12], Night iff altitude ≤ -18 — and the classification
is monotone: decreasing altitude never moves the phase backward toward Day. -/
theorem day_phase_thresholds_monotone (a : ℚ) :
    (day_phase a = "Día" ↔ 6 < a)
    ∧ (day_phase a = "Crepúsculo" ↔ -6 < a ∧ a ≤ 6)
    ∧ (day_phase a = "Crepúsculo náutico" ↔ -12 < a ∧ a ≤ -6)
    ∧ (day_phase a = "Crepúsculo astronómico" ↔ -18 < a ∧ a ≤ -12)
    ∧ (day_phase a = "Noche" ↔ a ≤ -18)
    ∧ (∀ b : ℚ, b ≤ a → phaseRank (day_phase a) ≤ phaseRank (day_phase b)) :=
  ⟨day_phase_dia a, day_phase_crepusculo a, day_phase_nautico a,
    day_phase_astronomico a, day_phase_noche a,
    fun b hba => day_phase_antitone a b hba⟩

/-- Witness for C2 at solar altitudes 7 (Day) and -20 (Night): the
monotonicity hypothesis `-20 ≤ 7` is discharged concretely. -/
theorem day_phase_thresholds_monotone_witness :
    ((-20 : ℚ) ≤ 7) ∧ phaseRank (day_phase 7) ≤ phaseRank (day_phase (-20)) :=
  ⟨by decide, (day_phase_thresholds_monotone 7).2.2.2.2.2 (-20) (by decide)⟩

/-- C4 counterexample: the verdict of `obtener_info_observacion`
(`src/astrotracker_ubicacion.py` line 154) is favorable at solar elevation
-10 (not Night, which needs ≤ -18), and at solar elevation -20 it flips from
favorable to unfavorable as lunar elevation moves from 0 to 40 — so the
verdict is neither "Good iff Night" at every call site, nor independent of
lunar altitude. -/
theorem observing_verdict_inconsistent :
    condiciones_observacion (-10) 0 = "Buenas"
    ∧ ¬((-10 : ℚ) ≤ -18)
    ∧ observing_conditions (-10) = "Poor"
    ∧ condiciones_observacion (-20) 0 = "Buenas"
    ∧ condiciones_observacion (-20) 40 = "Regular"
    ∧ observing_conditions (-20) = "Good" := by
  refine ⟨by decide, by decide, by decide, by decide, by decide, by decide⟩

/-- C4 as amended: the two call sites compute the verdict by two different
rules.  `get_sun_moon_info` returns "Good" iff the phase is Night (solar
altitude ≤ -18), ignoring the Moon; `obtener_info_observacion` returns
"Buenas" iff solar elevation < -6 and lunar elevation < 30. -/
theorem observing_verdict_policies :
    (∀ s : ℚ, observing_conditions s = "Good" ↔ s ≤ -18)
    ∧ (∀ s m : ℚ, condiciones_observacion s m = "Buenas" ↔ s < -6 ∧ m < 30) := by
  constructor
  · intro s
    unfold observing_conditions
    split_ifs with h
    · exact iff_of_true rfl ((day_phase_noche s).mp h)
    · exact iff_of_false (by decide) (fun hs => h ((day_phase_noche s).mpr hs))
  · intro s m
    unfold condiciones_observacion
    split_ifs with h
    · exact iff_of_true rfl h
    · exact iff_of_false (by decide) h

/-- C7: `set_target` succeeds exactly on catalog keys; on success it records
the name as the target and activates tracking, on failure it returns `False`
leaving the whole simulator state (in particular the current target and the
tracking flag) unchanged. -/
theorem set_target_iff_in_catalog (sim : AstroTrackingSimulator) (name : String) :
    ((set_target sim name).1 = (catalogLookup name).isSome)
    ∧ ((catalogLookup name).isSome = true →
        (set_target sim name).2 =
          { sim with target_object := some name, tracking_active := true })
    ∧ ((catalogLookup name).isSome = false → (set_target sim name).2 = sim) := by
  cases hc : (catalogLookup name).isSome with
  | false => simp [set_target, hc]
  | true => simp [set_target, hc]

/-- Witness for C7: "Sirius" is a catalog key and selecting it from a fresh
simulator records it and activates tracking; "Krypton" is not a catalog key
and selecting it leaves the fresh simulator unchanged. -/
theorem set_target_iff_in_catalog_witness :
    (catalogLookup "Sirius").isSome = true
    ∧ (set_target sim0 "Sirius").2 =
        { sim0 with target_object := some "Sirius", tracking_active := true }
    ∧ (catalogLookup "Krypton").isSome = false
    ∧ (set_target sim0 "Krypton").2 = sim0 :=
  ⟨rfl, (set_target_iff_in_catalog sim0 "Sirius").2.1 rfl, rfl,
    (set_target_iff_in_catalog sim0 "Krypton").2.2 rfl⟩

/-- C3 counterexample: at altitude 5 degrees the simulator's policy
(`is_visible = altitude > 0`) says visible while `es_objeto_visible` at its
default minimum elevation of 10 says not visible — the boundary policy varies
between the two call sites. -/
theorem visibility_policy_varies :
    is_visible 5 ∧ ¬ es_objeto_visible_default 5 := by
  constructor
  · show (5 : ℝ) > 0
    norm_num
  · show ¬((5 : ℝ) > 10)
    norm_num

/-- C3 as amended: `get_target_coordinates` decides visibility by
`altitude > 0` (altitude exactly 0 counts as not visible), while
`es_objeto_visible` decides by `altitude > elevacion_minima` with default 10,
so the default policy is strictly stricter and the two disagree exactly on
altitudes in (0, 10]. -/
theorem visibility_boundary_policies :
    (¬ is_visible 0)
    ∧ (∀ e : ℝ, es_objeto_visible_default e → is_visible e)
    ∧ (∀ e : ℝ, 0 < e → e ≤ 10 → is_visible e ∧ ¬ es_objeto_visible_default e)
    ∧ (∀ sim ts now c, get_target_coordinates sim ts now = some c →
        (c.is_visible ↔ 0 < c.altitud)) := by
  refine ⟨?_, ?_, ?_, ?_⟩
  · show ¬((0 : ℝ) > 0)
    norm_num
  · intro e he
    have h10 : (10 : ℝ) < e := he
    show e > 0
    linarith
  · intro e h0 h10
    exact ⟨h0, fun hv => absurd (show (10 : ℝ) < e from hv) (not_lt.mpr h10)⟩
  · intro sim ts now c h
    rcases sim with ⟨loc, tgt, tr⟩
    cases tgt with
    | none => simp [get_target_coordinates] at h
    | some name =>
      cases loc with
      | none => simp [get_target_coordinates] at h
      | some l =>
        cases hcat : catalogLookup name with
        | none => simp [get_target_coordinates, hcat] at h
        | some data =>
          simp [get_target_coordinates, hcat] at h
          subst h
          exact Iff.rfl

/-- Witness for C3 at altitude 5, discharging `0 < 5` and `5 ≤ 10`, and at
the concrete simulator output for Sirius. -/
theorem visibility_boundary_policies_witness :
    ((0 : ℝ) < 5 ∧ (5 : ℝ) ≤ 10 ∧ (is_visible 5 ∧ ¬ es_objeto_visible_default 5))
    ∧ (((get_target_coordinates simW none 0).getD dfltCoords).is_visible ↔
        0 < ((get_target_coordinates simW none 0).getD dfltCoords).altitud) :=
  ⟨⟨by norm_num, by norm_num,
      visibility_boundary_policies.2.2.1 5 (by norm_num) (by norm_num)⟩,
    visibility_boundary_policies.2.2.2 simW none 0 _ rfl⟩

/-- C1 counterexample: with no explicit timestamp, two invocations of
`get_target_coordinates` on the same simulator state but at two different
global-clock readings return different results (already their recorded
observation timestamps differ), so Engine results are not a function of the
explicit (Observer, target, Instant) inputs alone. -/
theorem get_target_coordinates_depends_on_clock :
    get_target_coordinates simW none 0 ≠ get_target_coordinates simW none 1 := by
  intro h
  have h2 := congrArg (Option.map TargetCoords.timestamp) h
  have e0 : Option.map TargetCoords.timestamp (get_target_coordinates simW none 0) =
      some (0 : ℝ) := rfl
  have e1 : Option.map TargetCoords.timestamp (get_target_coordinates simW none 1) =
      some (1 : ℝ) := rfl
  rw [e0, e1] at h2
  have h3 : (0 : ℝ) = 1 := Option.some.inj h2
  norm_num at h3

/-- C1 as amended: when the instant is passed explicitly, the transform is a
pure, replayable function of (Observer, target, Instant): the result does not
depend on the global clock, so two calls with the same explicit triple return
identical results.  With `timestamp=None` the routine instead falls back to
the current clock reading (and `get_sun_moon_info` always reads the clock,
having no instant parameter). -/
theorem get_target_coordinates_pure_when_explicit
    (sim : AstroTrackingSimulator) (t now1 now2 : ℝ) :
    get_target_coordinates sim (some t) now1 =
      get_target_coordinates sim (some t) now2 := rfl

/-- C5: every successful position computation returns an azimuth in [0, 360)
and an altitude in [-90, 90]. -/
theorem coordinates_in_range (sim : AstroTrackingSimulator) (ts : Option ℝ)
    (now : ℝ) (c : TargetCoords)
    (h : get_target_coordinates sim ts now = some c) :
    0 ≤ c.azimut ∧ c.azimut < 360 ∧ -90 ≤ c.altitud ∧ c.altitud ≤ 90 := by
  rcases sim with ⟨loc, tgt, tr⟩
  cases tgt with
  | none => simp [get_target_coordinates] at h
  | some name =>
    cases loc with
    | none => simp [get_target_coordinates] at h
    | some l =>
      cases hcat : catalogLookup name with
      | none => simp [get_target_coordinates, hcat] at h
      | some data =>
        simp [get_target_coordinates, hcat] at h
        subst h
        exact ⟨(azimuthDeg_mem _ _ _).1, (azimuthDeg_mem _ _ _).2,
          (altitudeDeg_mem _ _ _).1, (altitudeDeg_mem _ _ _).2⟩

/-- Witness for C5: the concrete output for Sirius from the Teide Observatory
at instant 0 is in range. -/
theorem coordinates_in_range_witness :
    0 ≤ ((get_target_coordinates simW none 0).getD dfltCoords).azimut
    ∧ ((get_target_coordinates simW none 0).getD dfltCoords).azimut < 360
    ∧ -90 ≤ ((get_target_coordinates simW none 0).getD dfltCoords).altitud
    ∧ ((get_target_coordinates simW none 0).getD dfltCoords).altitud ≤ 90 :=
  coordinates_in_range simW none 0 _ rfl

/-- C6: from latitude exactly +90, for every declination d in [0, 90] and
every hour angle (hence independently of right ascension and of the instant),
the computed altitude equals d exactly, and in particular to within 1e-6
degrees. -/
theorem pole_altitude_eq_declination (d hDeg : ℝ) (h0 : 0 ≤ d) (h90 : d ≤ 90) :
    altitudeDeg 90 d hDeg = d ∧ |altitudeDeg 90 d hDeg - d| ≤ 1e-6 := by
  have hpi := Real.pi_pos
  have key : altitudeDeg 90 d hDeg = d := by
    unfold altitudeDeg
    rw [show (90 : ℝ) * (Real.pi / 180) = Real.pi / 2 by ring]
    rw [Real.sin_pi_div_two, Real.cos_pi_div_two]
    rw [show Real.sin (d * (Real.pi / 180)) * 1 +
        Real.cos (d * (Real.pi / 180)) * 0 * Real.cos (hDeg * (Real.pi / 180)) =
        Real.sin (d * (Real.pi / 180)) by ring]
    rw [Real.arcsin_sin (by nlinarith) (by nlinarith)]
    field_simp
    ring
  refine ⟨key, ?_⟩
  rw [key, sub_self, abs_zero]
  norm_num

/-- Witness for C6 at declination 45 and hour angle 7. -/
theorem pole_altitude_eq_declination_witness :
    (0 : ℝ) ≤ 45 ∧ (45 : ℝ) ≤ 90 ∧ altitudeDeg 90 45 7 = 45 :=
  ⟨by norm_num, by norm_num,
    (pole_altitude_eq_declination 45 7 (by norm_num) (by norm_num)).1⟩

/-- C9 counterexample: longitude 200 is outside [-180, 180], yet manual
location entry succeeds — the dictionary is returned and an `EarthLocation`
is produced, with the longitude silently wrapped to -160 — so construction
does not fail for every out-of-range coordinate.  Moreover for latitude 91
the failure comes only from the library raise while deriving the
`EarthLocation`, after `ubicacion_actual` has already been overwritten with
the out-of-range dictionary. -/
theorem manual_location_accepts_out_of_range :
    (180 : ℚ) < 200
    ∧ ((establecer_ubicacion_manual mgr0 0 200 0 "" "" "t").1 =
        some (ubicacion_dict 0 200 0 "" "" "t"))
    ∧ ((establecer_ubicacion_manual mgr0 0 200 0 "" "" "t").2.earth_location =
        some ⟨0, -160, 0⟩)
    ∧ ((establecer_ubicacion_manual mgr0 91 0 0 "" "" "t").1 = none)
    ∧ ((establecer_ubicacion_manual mgr0 91 0 0 "" "" "t").2.ubicacion_actual =
        some (ubicacion_dict 91 0 0 "" "" "t"))
    ∧ ((establecer_ubicacion_manual mgr0 91 0 0 "" "" "t").2.earth_location =
        none) := by
  have hw : wrap180Q 200 = -160 := by
    unfold wrap180Q wrap360Q
    norm_num
  have hc : EarthLocation_from_geodetic 0 200 0 = some ⟨0, -160, 0⟩ := by
    unfold EarthLocation_from_geodetic
    rw [if_pos (by norm_num : (-90 : ℚ) ≤ 0 ∧ (0 : ℚ) ≤ 90), hw]
  have hc2 : EarthLocation_from_geodetic 91 0 0 = none := by
    unfold EarthLocation_from_geodetic
    rw [if_neg (by decide : ¬((-90 : ℚ) ≤ 91 ∧ (91 : ℚ) ≤ 90))]
  refine ⟨by norm_num, ?_, ?_, ?_, rfl, ?_⟩
  · simp [establecer_ubicacion_manual, hc]
  · simp [establecer_ubicacion_manual, hc]
  · simp [establecer_ubicacion_manual, hc2]
  · simp [establecer_ubicacion_manual, hc2, mgr0]

/-- C9 as amended: the repository performs no validation of its own; what
rejection exists comes from the external `EarthLocation` constructor.  A
latitude outside [-90, 90] makes manual entry fail without producing a value
(the library raises; `earth_location` keeps its previous value, though
`ubicacion_actual` has already been overwritten), so the transform never
sees an out-of-range latitude.  A longitude outside [-180, 180] is not
rejected: for every in-range latitude, entry succeeds for every longitude,
which is silently wrapped into (-180, 180]. -/
theorem manual_location_validation (mgr : UbicacionManager)
    (lat lon alt : ℚ) (ciudad pais ts : String) :
    (¬(-90 ≤ lat ∧ lat ≤ 90) →
      ((establecer_ubicacion_manual mgr lat lon alt ciudad pais ts).1 = none)
      ∧ ((establecer_ubicacion_manual mgr lat lon alt ciudad pais ts).2.earth_location =
          mgr.earth_location)
      ∧ ((establecer_ubicacion_manual mgr lat lon alt ciudad pais ts).2.ubicacion_actual =
          some (ubicacion_dict lat lon alt ciudad pais ts)))
    ∧ ((-90 ≤ lat ∧ lat ≤ 90) →
      ((establecer_ubicacion_manual mgr lat lon alt ciudad pais ts).1 =
        some (ubicacion_dict lat lon alt ciudad pais ts))
      ∧ ((establecer_ubicacion_manual mgr lat lon alt ciudad pais ts).2.earth_location =
          some ⟨lat, wrap180Q lon, alt⟩)
      ∧ (-180 < wrap180Q lon ∧ wrap180Q lon ≤ 180)) := by
  constructor
  · intro h
    have hc : EarthLocation_from_geodetic lat lon alt = none := by
      unfold EarthLocation_from_geodetic
      simp [h]
    exact ⟨by simp [establecer_ubicacion_manual, hc],
      by simp [establecer_ubicacion_manual, hc], rfl⟩
  · intro h
    have hc : EarthLocation_from_geodetic lat lon alt =
        some ⟨lat, wrap180Q lon, alt⟩ := by
      unfold EarthLocation_from_geodetic
      simp [h]
    exact ⟨by simp [establecer_ubicacion_manual, hc],
      by simp [establecer_ubicacion_manual, hc], wrap180Q_mem lon⟩

/-- Witness for C9 as amended: latitude 91 discharges the out-of-range
hypothesis (entry fails), and latitude 0 with longitude 200 discharges the
in-range hypothesis (entry succeeds, longitude wrapped). -/
theorem manual_location_validation_witness :
    (¬((-90 : ℚ) ≤ 91 ∧ (91 : ℚ) ≤ 90)
      ∧ (establecer_ubicacion_manual mgr0 91 0 0 "" "" "t").1 = none)
    ∧ (((-90 : ℚ) ≤ 0 ∧ (0 : ℚ) ≤ 90)
      ∧ (establecer_ubicacion_manual mgr0 0 200 0 "" "" "t").2.earth_location =
          some ⟨0, wrap180Q 200, 0⟩) :=
  ⟨⟨by decide, ((manual_location_validation mgr0 91 0 0 "" "" "t").1 (by decide)).1⟩,
    ⟨by decide, ((manual_location_validation mgr0 0 200 0 "" "" "t").2 (by decide)).2.1⟩⟩

end Astrotracker
